import Mathlib

/-!
Verification of the AquaOrder order-lifecycle engine.

Shallow embedding of the order data model, the transition operations
(driver `updateStatus` in the driver screen, owner `updateStatus`,
`handleAssignDriver` in the owner screen, customer `handleSubmit`),
the dashboard metrics fold, and role resolution (`getUserRole`),
translated directly from the TypeScript source.
-/

namespace AquaOrder

/-- The five order statuses of `OrderStatus` in `app/lib/types`. -/
inductive OrderStatus where
  | PENDING
  | CONFIRMED
  | OUT_FOR_DELIVERY
  | DELIVERED
  | CANCELLED
deriving DecidableEq, Repr, BEq

/-- The `Order` document shape from `app/lib/types`.  Nullable / possibly
absent fields are `Option`; timestamps are abstract ticks (`Nat`);
`liters` is a JS number, modelled as `ℚ`. -/
structure Order where
  id : String
  customerUid : Option String
  customerName : Option String
  customerPhone : Option String
  address : Option String
  landmark : Option String
  waterType : Option String
  liters : Option ℚ
  paymentMethod : Option String
  scheduleType : Option String
  scheduledFor : Option Nat
  status : OrderStatus
  createdAt : Option Nat
  updatedAt : Option Nat
  assignedDriverUid : Option String
  assignedDriverName : Option String
deriving DecidableEq, Repr

/-- JS truthiness test used on `string | null` values: `null` and the
empty string are falsy. -/
def jsFalsyStr : Option String → Bool
  | none => true
  | some s => s = ""

/-- JS nullish coalescing `a ?? b` on nullable strings. -/
def jsNullish (a b : Option String) : Option String :=
  match a with
  | some x => some x
  | none => b

/-- JS `String.prototype.trim`: strip leading and trailing whitespace
(structural model of the built-in). -/
def jsTrim (s : String) : String :=
  ⟨(((s.data.dropWhile Char.isWhitespace).reverse.dropWhile
    Char.isWhitespace).reverse)⟩

/-- A single Firestore `updateDoc` payload as built by the transition
operations: each field is present (`some`) exactly when the payload
writes it.  `updatedAt` carries the server timestamp tick. -/
structure UpdatePayload where
  status : Option OrderStatus
  assignedDriverUid : Option String
  assignedDriverName : Option String
  updatedAt : Option Nat
deriving DecidableEq, Repr

/-- Firestore `updateDoc` merge semantics: fields present in the payload
overwrite the document, all other fields are untouched. -/
def applyPayload (o : Order) (p : UpdatePayload) : Order :=
  { o with
    status := p.status.getD o.status
    assignedDriverUid :=
      match p.assignedDriverUid with
      | some v => some v
      | none => o.assignedDriverUid
    assignedDriverName :=
      match p.assignedDriverName with
      | some v => some v
      | none => o.assignedDriverName
    updatedAt :=
      match p.updatedAt with
      | some t => some t
      | none => o.updatedAt }

/-- Driver-screen `updateStatus` (driver page): checks the order's
current status, rejects with a message when the precondition fails, and
otherwise issues exactly one update payload.  When starting delivery on
an order with a falsy `assignedDriverUid` and a truthy acting-driver
uid, the same payload also self-assigns the driver. -/
def driverUpdateStatus (driverUid displayName : Option String)
    (order : Order) (status : OrderStatus) (now : Nat) :
    Except String UpdatePayload :=
  if status = .OUT_FOR_DELIVERY ∧ order.status ≠ .CONFIRMED then
    .error "This delivery is no longer in the confirmed stage."
  else if status = .DELIVERED ∧ order.status ≠ .OUT_FOR_DELIVERY then
    .error "This delivery is not out for delivery yet."
  else if status = .OUT_FOR_DELIVERY ∧ jsFalsyStr order.assignedDriverUid = true ∧
      jsFalsyStr driverUid = false then
    .ok { status := some status
          assignedDriverUid := driverUid
          assignedDriverName :=
            some ((jsNullish order.assignedDriverName displayName).getD "Driver")
          updatedAt := some now }
  else
    .ok { status := some status
          assignedDriverUid := none
          assignedDriverName := none
          updatedAt := some now }

/-- Owner-screen `updateStatus`: writes the new status and timestamp
unconditionally — the function performs no precondition check of its
own. -/
def ownerUpdateStatus (status : OrderStatus) (now : Nat) : UpdatePayload :=
  { status := some status
    assignedDriverUid := none
    assignedDriverName := none
    updatedAt := some now }

/-- The owner status buttons rendered for an order in the owner screen:
Confirm/Cancel when PENDING, Revert-to-Pending/Cancel when CONFIRMED,
nothing otherwise. -/
def ownerStatusActions : OrderStatus → List OrderStatus
  | .PENDING => [.CONFIRMED, .CANCELLED]
  | .CONFIRMED => [.PENDING, .CANCELLED]
  | _ => []

/-- `canAssign` in the owner screen: the driver-assignment block is
rendered only while the order is PENDING or CONFIRMED. -/
def canAssign (s : OrderStatus) : Bool :=
  s == .PENDING || s == .CONFIRMED

/-- One entry of the owner screen's active-driver dropdown (`DriverOption`). -/
structure DriverOption where
  uid : String
  name : String
deriving DecidableEq, Repr

/-- Owner-screen `handleAssignDriver`: returns early when no driver is
selected, otherwise writes the selected uid, the driver's name from the
active-driver list (falling back to "Driver"), and the timestamp. -/
def handleAssignDriver (drivers : List DriverOption) (selection : Option String)
    (now : Nat) : Option UpdatePayload :=
  if jsFalsyStr selection = true then
    none
  else
    some { status := none
           assignedDriverUid := selection
           assignedDriverName :=
             some (((drivers.find? (fun item => item.uid == selection.getD "")).map
               DriverOption.name).getD "Driver")
           updatedAt := some now }

/-- The two driver-screen transition targets actually wired to buttons
(Start Delivery, Mark Delivered). -/
def driverTargets : List OrderStatus := [.OUT_FOR_DELIVERY, .DELIVERED]

/-- A raw order document as read by the dashboard metrics effect:
`status` is `some` when the stored value is one of the five statuses,
`liters` is `some` when the stored value is a JS number. -/
structure RawOrderDoc where
  status : Option OrderStatus
  liters : Option ℚ
deriving DecidableEq, Repr

/-- The `byStatus` record of `DashboardMetrics`, one counter per status. -/
structure StatusCounts where
  pending : Nat
  confirmed : Nat
  outForDelivery : Nat
  delivered : Nat
  cancelled : Nat
deriving DecidableEq, Repr

/-- Read the counter for a status. -/
def StatusCounts.get (c : StatusCounts) : OrderStatus → Nat
  | .PENDING => c.pending
  | .CONFIRMED => c.confirmed
  | .OUT_FOR_DELIVERY => c.outForDelivery
  | .DELIVERED => c.delivered
  | .CANCELLED => c.cancelled

/-- Increment the counter for a status (`metrics.byStatus[status] += 1`). -/
def StatusCounts.inc (c : StatusCounts) : OrderStatus → StatusCounts
  | .PENDING => { c with pending := c.pending + 1 }
  | .CONFIRMED => { c with confirmed := c.confirmed + 1 }
  | .OUT_FOR_DELIVERY => { c with outForDelivery := c.outForDelivery + 1 }
  | .DELIVERED => { c with delivered := c.delivered + 1 }
  | .CANCELLED => { c with cancelled := c.cancelled + 1 }

/-- `DashboardMetrics` from the owner screen. -/
structure DashboardMetrics where
  total : Nat
  liters : ℚ
  byStatus : StatusCounts
  deliveredOrders : Nat
  deliveredLiters : ℚ
deriving DecidableEq, Repr

/-- `createEmptyMetrics` from the owner screen. -/
def createEmptyMetrics : DashboardMetrics :=
  { total := 0
    liters := 0
    byStatus := ⟨0, 0, 0, 0, 0⟩
    deliveredOrders := 0
    deliveredLiters := 0 }

/-- `typeof data.liters === "number" ? data.liters : 0`. -/
def litersOf (d : RawOrderDoc) : ℚ := d.liters.getD 0

/-- The body of `snapshot.forEach` in the dashboard metrics effect,
processing one document. -/
def metricsStep (m : DashboardMetrics) (d : RawOrderDoc) : DashboardMetrics :=
  let m1 :=
    match d.status with
    | some s => { m with byStatus := m.byStatus.inc s }
    | none => m
  let m2 := { m1 with total := m1.total + 1, liters := m1.liters + litersOf d }
  match d.status with
  | some .DELIVERED =>
      { m2 with
        deliveredOrders := m2.deliveredOrders + 1
        deliveredLiters := m2.deliveredLiters + litersOf d }
  | _ => m2

/-- The dashboard metrics effect: fold a today-snapshot from scratch,
starting from `createEmptyMetrics`. -/
def foldMetrics (docs : List RawOrderDoc) : DashboardMetrics :=
  docs.foldl metricsStep createEmptyMetrics

/-- `deliveredRevenueToday` from the dashboard render: evaluated only
when the configured price per 1000 L is positive, otherwise zero. -/
def deliveredRevenueToday (m : DashboardMetrics)
    (pricePer1000 deliveryFee : ℚ) : ℚ :=
  if 0 < pricePer1000 then
    m.deliveredLiters / 1000 * pricePer1000 + deliveryFee * m.deliveredOrders
  else 0

/-- Goal `progress` from the dashboard render. -/
def goalProgress (deliveredOrders : Nat) (dailyGoal : ℚ) : ℚ :=
  if 0 < dailyGoal then min ((deliveredOrders : ℚ) / dailyGoal) 1 else 0

/-- A loosely-typed field value of a Firestore `users` document. -/
inductive JSVal where
  | vUndefined
  | vNull
  | vBool (b : Bool)
  | vStr (s : String)
  | vNum (q : ℚ)
deriving DecidableEq, Repr

/-- A `users/{uid}` role-profile document, fields loosely typed as
stored. -/
structure UserDoc where
  role : JSVal
  isActive : JSVal
deriving DecidableEq, Repr

/-- `UserRole` from the authz module. -/
inductive UserRole where
  | OWNER
  | DRIVER
deriving DecidableEq, Repr

/-- `getUserRole` from the authz module: null when the profile document
is absent, null when `isActive === false`, the stored role when it is
exactly "OWNER" or "DRIVER", null otherwise. -/
def getUserRole (users : String → Option UserDoc) (uid : String) :
    Option UserRole :=
  match users uid with
  | none => none
  | some data =>
    if data.isActive = .vBool false then none
    else if data.role = .vStr "OWNER" then some .OWNER
    else if data.role = .vStr "DRIVER" then some .DRIVER
    else none

/-- The customer order form state feeding `handleSubmit`; the
`scheduledTimestamp` field is the memoized target instant, `none` when
schedule is "asap" or the date/time inputs do not yield one. -/
structure OrderForm where
  customerName : String
  customerPhone : String
  address : String
  landmark : String
  waterType : String
  liters : ℚ
  paymentMethod : String
  scheduleType : String
  scheduledTimestamp : Option Nat
deriving DecidableEq, Repr

/-- Customer `handleSubmit`: validates, then issues exactly one
`addDoc` creating the new order document. -/
def handleSubmit (authUid : Option String) (form : OrderForm)
    (newId : String) (now : Nat) : Except String Order :=
  if authUid = none then
    .error "Signing you in. Please try again in a moment."
  else if jsTrim form.customerName = "" ∨ jsTrim form.customerPhone = "" ∨
      jsTrim form.address = "" then
    .error "Please complete your name, phone, and address."
  else if form.liters ≤ 0 then
    .error "Please choose a valid liters amount."
  else if form.scheduleType = "later" ∧ form.scheduledTimestamp = none then
    .error "Please select a delivery date and time."
  else
    .ok { id := newId
          customerUid := authUid
          customerName := some (jsTrim form.customerName)
          customerPhone := some (jsTrim form.customerPhone)
          address := some (jsTrim form.address)
          landmark := some (jsTrim form.landmark)
          waterType := some form.waterType
          liters := some form.liters
          paymentMethod := some form.paymentMethod
          scheduleType := some form.scheduleType
          scheduledFor := form.scheduledTimestamp
          status := .PENDING
          createdAt := some now
          updatedAt := some now
          assignedDriverUid := none
          assignedDriverName := none }

/-- Invariant: assigned-driver uid and name are either both null or both
set. -/
def assignPairConsistent (o : Order) : Prop :=
  o.assignedDriverUid = none ↔ o.assignedDriverName = none

/-- A concrete order used to instantiate theorems. -/
def sampleOrder : Order :=
  { id := "o1"
    customerUid := some "c1"
    customerName := some "Thabo"
    customerPhone := some "0711234567"
    address := some "12 Main Rd"
    landmark := none
    waterType := some "refill"
    liters := some 1000
    paymentMethod := some "cash"
    scheduleType := some "asap"
    scheduledFor := none
    status := OrderStatus.PENDING
    createdAt := some 1
    updatedAt := some 1
    assignedDriverUid := none
    assignedDriverName := none }

/-- A delivered order (terminal state). -/
def deliveredSample : Order := { sampleOrder with status := .DELIVERED }

/-- A confirmed order with no assigned driver. -/
def confirmedUnassigned : Order := { sampleOrder with status := .CONFIRMED }

/-- A confirmed order already assigned to driver d1 with cached name
"Alice". -/
def assignedAlice : Order :=
  { sampleOrder with
    status := .CONFIRMED
    assignedDriverUid := some "d1"
    assignedDriverName := some "Alice" }

/-- The spec's dashboard example: 3 PENDING orders of 100 L, 200 L,
50 L and 2 DELIVERED orders of 1000 L, 500 L. -/
def exampleTodayDocs : List RawOrderDoc :=
  [⟨some .PENDING, some 100⟩, ⟨some .PENDING, some 200⟩,
   ⟨some .PENDING, some 50⟩, ⟨some .DELIVERED, some 1000⟩,
   ⟨some .DELIVERED, some 500⟩]

/-- A concrete users collection: an owner profile with no `isActive`
field, an inactive driver profile, and an active driver profile. -/
def sampleUsers : String → Option UserDoc := fun uid =>
  if uid = "u-owner" then some { role := .vStr "OWNER", isActive := .vUndefined }
  else if uid = "u-inactive" then some { role := .vStr "DRIVER", isActive := .vBool false }
  else if uid = "u-driver" then some { role := .vStr "DRIVER", isActive := .vBool true }
  else none

/-- A concrete valid customer order form. -/
def sampleForm : OrderForm :=
  { customerName := " Thabo "
    customerPhone := "0711234567"
    address := "12 Main Rd"
    landmark := ""
    waterType := "refill"
    liters := 1000
    paymentMethod := "cash"
    scheduleType := "asap"
    scheduledTimestamp := none }

/-- A non-falsy `string | null` value is a nonempty string. -/
theorem jsFalsyStr_false_some (x : Option String) (h : jsFalsyStr x = false) :
    ∃ s, x = some s ∧ s ≠ "" := by
  rcases x with _ | s
  · simp [jsFalsyStr] at h
  · refine ⟨s, rfl, ?_⟩
    simpa [jsFalsyStr] using h

/-- Start-delivery on a non-CONFIRMED order rejects with the
"no longer confirmed" message. -/
theorem driverStart_reject (du dn : Option String) (o : Order) (now : Nat)
    (h : o.status ≠ .CONFIRMED) :
    driverUpdateStatus du dn o .OUT_FOR_DELIVERY now =
      .error "This delivery is no longer in the confirmed stage." := by
  simp [driverUpdateStatus, h]

/-- Mark-delivered on an order not OUT_FOR_DELIVERY rejects with the
"not out for delivery yet" message. -/
theorem driverDeliver_reject (du dn : Option String) (o : Order) (now : Nat)
    (h : o.status ≠ .OUT_FOR_DELIVERY) :
    driverUpdateStatus du dn o .DELIVERED now =
      .error "This delivery is not out for delivery yet." := by
  simp [driverUpdateStatus, h]

/-- Start-delivery on a CONFIRMED order with falsy assigned uid and a
truthy acting driver self-assigns in the same single payload. -/
theorem driverStart_claim (du dn : Option String) (o : Order) (now : Nat)
    (hconf : o.status = .CONFIRMED) (hun : jsFalsyStr o.assignedDriverUid = true)
    (hdu : jsFalsyStr du = false) :
    driverUpdateStatus du dn o .OUT_FOR_DELIVERY now =
      .ok { status := some .OUT_FOR_DELIVERY
            assignedDriverUid := du
            assignedDriverName :=
              some ((jsNullish o.assignedDriverName dn).getD "Driver")
            updatedAt := some now } := by
  simp [driverUpdateStatus, hconf, hun, hdu]

/-- Start-delivery on a CONFIRMED order that already has a (non-falsy)
assigned driver writes the status and timestamp only. -/
theorem driverStart_assigned (du dn : Option String) (o : Order) (now : Nat)
    (hconf : o.status = .CONFIRMED)
    (has : jsFalsyStr o.assignedDriverUid = false) :
    driverUpdateStatus du dn o .OUT_FOR_DELIVERY now =
      .ok { status := some .OUT_FOR_DELIVERY
            assignedDriverUid := none
            assignedDriverName := none
            updatedAt := some now } := by
  simp [driverUpdateStatus, hconf, has]

/-- Mark-delivered on an OUT_FOR_DELIVERY order writes status and
timestamp only. -/
theorem driverDeliver_apply (du dn : Option String) (o : Order) (now : Nat)
    (h : o.status = .OUT_FOR_DELIVERY) :
    driverUpdateStatus du dn o .DELIVERED now =
      .ok { status := some .DELIVERED
            assignedDriverUid := none
            assignedDriverName := none
            updatedAt := some now } := by
  simp [driverUpdateStatus, h]

/-- A start-delivery write only happens when the order was CONFIRMED. -/
theorem driverStart_ok_confirmed (du dn : Option String) (o : Order) (now : Nat)
    (p : UpdatePayload)
    (hp : driverUpdateStatus du dn o .OUT_FOR_DELIVERY now = .ok p) :
    o.status = .CONFIRMED := by
  by_contra h
  rw [driverStart_reject du dn o now h] at hp
  exact Except.noConfusion hp

/-- A mark-delivered write only happens when the order was
OUT_FOR_DELIVERY. -/
theorem driverDeliver_ok_ofd (du dn : Option String) (o : Order) (now : Nat)
    (p : UpdatePayload)
    (hp : driverUpdateStatus du dn o .DELIVERED now = .ok p) :
    o.status = .OUT_FOR_DELIVERY := by
  by_contra h
  rw [driverDeliver_reject du dn o now h] at hp
  exact Except.noConfusion hp

/-- Any successful driver write carries the target status and either
both assignment fields (self-assign, with a truthy acting driver) or
neither. -/
theorem driverUpdateStatus_ok_payload (du dn : Option String) (o : Order)
    (t : OrderStatus) (now : Nat) (p : UpdatePayload)
    (hp : driverUpdateStatus du dn o t now = .ok p) :
    p.status = some t ∧ p.updatedAt = some now ∧
    ((p.assignedDriverUid = none ∧ p.assignedDriverName = none) ∨
     (jsFalsyStr du = false ∧ p.assignedDriverUid = du ∧
      p.assignedDriverName =
        some ((jsNullish o.assignedDriverName dn).getD "Driver"))) := by
  unfold driverUpdateStatus at hp
  by_cases h1 : t = .OUT_FOR_DELIVERY ∧ o.status ≠ .CONFIRMED
  · rw [if_pos h1] at hp
    exact Except.noConfusion hp
  rw [if_neg h1] at hp
  by_cases h2 : t = .DELIVERED ∧ o.status ≠ .OUT_FOR_DELIVERY
  · rw [if_pos h2] at hp
    exact Except.noConfusion hp
  rw [if_neg h2] at hp
  by_cases h3 : t = .OUT_FOR_DELIVERY ∧ jsFalsyStr o.assignedDriverUid = true ∧
      jsFalsyStr du = false
  · rw [if_pos h3] at hp
    obtain rfl := Except.ok.inj hp
    exact ⟨rfl, rfl, Or.inr ⟨h3.2.2, rfl, rfl⟩⟩
  · rw [if_neg h3] at hp
    obtain rfl := Except.ok.inj hp
    exact ⟨rfl, rfl, Or.inl ⟨rfl, rfl⟩⟩

/-- The owner status update writes the new status and timestamp
unconditionally, touching nothing else. -/
theorem ownerUpdate_apply (o : Order) (t : OrderStatus) (now : Nat) :
    applyPayload o (ownerUpdateStatus t now) =
      { o with status := t, updatedAt := some now } := by
  simp [applyPayload, ownerUpdateStatus]

/-- The owner status buttons are offered exactly when the spec's
per-transition precondition holds on the snapshot status. -/
theorem ownerActions_gating (s : OrderStatus) :
    (OrderStatus.CONFIRMED ∈ ownerStatusActions s ↔ s = .PENDING) ∧
    (OrderStatus.PENDING ∈ ownerStatusActions s ↔ s = .CONFIRMED) ∧
    (OrderStatus.CANCELLED ∈ ownerStatusActions s ↔
      (s = .PENDING ∨ s = .CONFIRMED)) ∧
    (OrderStatus.OUT_FOR_DELIVERY ∉ ownerStatusActions s) ∧
    (OrderStatus.DELIVERED ∉ ownerStatusActions s) := by
  cases s <;> simp [ownerStatusActions]

/-- A successful assignment write records the selected uid, the looked
up driver name (or "Driver"), and the timestamp; it never touches
status. -/
theorem handleAssignDriver_some (drivers : List DriverOption)
    (sel : Option String) (now : Nat) (p : UpdatePayload)
    (hp : handleAssignDriver drivers sel now = some p) :
    jsFalsyStr sel = false ∧
    p = { status := none
          assignedDriverUid := sel
          assignedDriverName :=
            some (((drivers.find? (fun item => item.uid == sel.getD "")).map
              DriverOption.name).getD "Driver")
          updatedAt := some now } := by
  unfold handleAssignDriver at hp
  by_cases h : jsFalsyStr sel = true
  · rw [if_pos h] at hp
    exact Option.noConfusion hp
  · rw [if_neg h] at hp
    exact ⟨by simpa using h, (Option.some.inj hp).symm⟩

/-- Applying a payload whose assignment fields are both present or both
absent preserves the both-null-or-both-set invariant. -/
theorem applyPayload_pair (o : Order) (p : UpdatePayload)
    (hinv : assignPairConsistent o)
    (hpair : (p.assignedDriverUid = none ∧ p.assignedDriverName = none) ∨
      (p.assignedDriverUid ≠ none ∧ p.assignedDriverName ≠ none)) :
    assignPairConsistent (applyPayload o p) := by
  rcases hpair with ⟨h1, h2⟩ | ⟨h1, h2⟩
  · simpa [assignPairConsistent, applyPayload, h1, h2] using hinv
  · rcases hu : p.assignedDriverUid with _ | u
    · exact absurd hu h1
    rcases hn : p.assignedDriverName with _ | n
    · exact absurd hn h2
    simp [assignPairConsistent, applyPayload, hu, hn]

/-- Incrementing one status counter adds one to that status and leaves
the others. -/
theorem StatusCounts.get_inc (c : StatusCounts) (s t : OrderStatus) :
    (c.inc s).get t = c.get t + (if s = t then 1 else 0) := by
  cases s <;> cases t <;> simp [StatusCounts.inc, StatusCounts.get]

/-- One metrics fold step adds one to the total count. -/
theorem metricsStep_total (m : DashboardMetrics) (d : RawOrderDoc) :
    (metricsStep m d).total = m.total + 1 := by
  rcases h : d.status with _ | s
  · simp [metricsStep, h]
  · cases s <;> simp [metricsStep, h]

/-- One metrics fold step adds the document's liters (0 when not a
number). -/
theorem metricsStep_liters (m : DashboardMetrics) (d : RawOrderDoc) :
    (metricsStep m d).liters = m.liters + litersOf d := by
  rcases h : d.status with _ | s
  · simp [metricsStep, h]
  · cases s <;> simp [metricsStep, h]

/-- One metrics fold step increments exactly the document's status
counter (none when the status is not one of the five values). -/
theorem metricsStep_byStatus (m : DashboardMetrics) (d : RawOrderDoc)
    (t : OrderStatus) :
    (metricsStep m d).byStatus.get t =
      m.byStatus.get t + (if d.status = some t then 1 else 0) := by
  rcases h : d.status with _ | s
  · simp [metricsStep, h]
  · cases s <;> cases t <;>
      simp [metricsStep, h, StatusCounts.inc, StatusCounts.get]

/-- One metrics fold step updates the delivered counters exactly on
DELIVERED documents. -/
theorem metricsStep_delivered (m : DashboardMetrics) (d : RawOrderDoc) :
    (metricsStep m d).deliveredOrders =
      m.deliveredOrders + (if d.status = some .DELIVERED then 1 else 0) ∧
    (metricsStep m d).deliveredLiters =
      m.deliveredLiters + (if d.status = some .DELIVERED then litersOf d else 0) := by
  rcases h : d.status with _ | s
  · simp [metricsStep, h]
  · cases s <;> simp [metricsStep, h]

/-- Fold characterization, generalized over the accumulator. -/
theorem metrics_foldl (docs : List RawOrderDoc) : ∀ m : DashboardMetrics,
    (docs.foldl metricsStep m).total = m.total + docs.length ∧
    (docs.foldl metricsStep m).liters = m.liters + (docs.map litersOf).sum ∧
    (∀ t, (docs.foldl metricsStep m).byStatus.get t =
      m.byStatus.get t +
        (docs.filter (fun d => decide (d.status = some t))).length) ∧
    (docs.foldl metricsStep m).deliveredOrders =
      m.deliveredOrders +
        (docs.filter (fun d => decide (d.status = some .DELIVERED))).length ∧
    (docs.foldl metricsStep m).deliveredLiters =
      m.deliveredLiters +
        ((docs.filter (fun d => decide (d.status = some .DELIVERED))).map
          litersOf).sum := by
  induction docs with
  | nil => intro m; simp
  | cons d ds ih =>
    intro m
    obtain ⟨h1, h2, h3, h4, h5⟩ := ih (metricsStep m d)
    refine ⟨?_, ?_, ?_, ?_, ?_⟩
    · rw [List.foldl_cons, h1, metricsStep_total]
      simp only [List.length_cons]
      omega
    · rw [List.foldl_cons, h2, metricsStep_liters]
      simp only [List.map_cons, List.sum_cons]
      ring
    · intro t
      rw [List.foldl_cons, h3 t, metricsStep_byStatus]
      by_cases hd : d.status = some t <;>
        simp [hd, List.filter_cons] <;> omega
    · rw [List.foldl_cons, h4, (metricsStep_delivered m d).1]
      by_cases hd : d.status = some OrderStatus.DELIVERED <;>
        simp [hd, List.filter_cons] <;> omega
    · rw [List.foldl_cons, h5, (metricsStep_delivered m d).2]
      by_cases hd : d.status = some OrderStatus.DELIVERED <;>
        simp [hd, List.filter_cons] <;> ring

/-- C1 counterexample: the owner confirm operation applied to a
DELIVERED order performs the status mutation — it makes no precondition
check and produces no rejection reason — refuting the claim that every
transition operation checks the order's current status before applying
and performs no mutation when the precondition fails. -/
theorem ownerConfirm_on_delivered_mutates :
    deliveredSample.status = OrderStatus.DELIVERED ∧
    (applyPayload deliveredSample (ownerUpdateStatus .CONFIRMED 5)).status =
      OrderStatus.CONFIRMED := by
  exact ⟨rfl, rfl⟩

/-- C1 (amended): the driver transitions (start-delivery,
mark-delivered) check the order's current status immediately before
applying and, when the precondition fails, reject with a human-readable
reason and issue no write (a write occurs only when the precondition
held); the owner transitions (confirm, cancel, revert-to-pending) are
offered by the UI only while the snapshot status satisfies the
precondition, but the owner update operation itself performs no status
check and writes the new status unconditionally. -/
theorem C1_transition_guard_policy (du dn : Option String) (o : Order)
    (now : Nat) :
    (o.status ≠ .CONFIRMED →
      driverUpdateStatus du dn o .OUT_FOR_DELIVERY now =
        .error "This delivery is no longer in the confirmed stage.") ∧
    (o.status ≠ .OUT_FOR_DELIVERY →
      driverUpdateStatus du dn o .DELIVERED now =
        .error "This delivery is not out for delivery yet.") ∧
    (∀ p, driverUpdateStatus du dn o .OUT_FOR_DELIVERY now = .ok p →
      o.status = .CONFIRMED) ∧
    (∀ p, driverUpdateStatus du dn o .DELIVERED now = .ok p →
      o.status = .OUT_FOR_DELIVERY) ∧
    (OrderStatus.CONFIRMED ∈ ownerStatusActions o.status ↔
      o.status = .PENDING) ∧
    (OrderStatus.PENDING ∈ ownerStatusActions o.status ↔
      o.status = .CONFIRMED) ∧
    (OrderStatus.CANCELLED ∈ ownerStatusActions o.status ↔
      (o.status = .PENDING ∨ o.status = .CONFIRMED)) ∧
    (∀ t, applyPayload o (ownerUpdateStatus t now) =
      { o with status := t, updatedAt := some now }) := by
  obtain ⟨g1, g2, g3, -, -⟩ := ownerActions_gating o.status
  exact ⟨driverStart_reject du dn o now, driverDeliver_reject du dn o now,
    fun p => driverStart_ok_confirmed du dn o now p,
    fun p => driverDeliver_ok_ofd du dn o now p,
    g1, g2, g3, fun t => ownerUpdate_apply o t now⟩

/-- C1 witness: the guard policy instantiated on a DELIVERED order and
a concrete driver. -/
theorem C1_transition_guard_policy_check :
    driverUpdateStatus (some "d7") (some "Neo") deliveredSample
      .OUT_FOR_DELIVERY 3 =
      .error "This delivery is no longer in the confirmed stage." :=
  (C1_transition_guard_policy (some "d7") (some "Neo") deliveredSample 3).1
    (by decide)

/-- C2: a driver starting delivery on a CONFIRMED, unassigned order
issues exactly one single-document write that simultaneously sets the
status to OUT_FOR_DELIVERY and both assignment fields to the acting
driver, so no written state has a driver assigned while still
CONFIRMED; on an already-assigned order the same operation writes
status and timestamp only. -/
theorem C2_claim_and_advance (du dn : Option String) (o : Order) (now : Nat)
    (hconf : o.status = .CONFIRMED) :
    (o.assignedDriverUid = none → jsFalsyStr du = false →
      ∃ p, driverUpdateStatus du dn o .OUT_FOR_DELIVERY now = .ok p ∧
        p.status = some .OUT_FOR_DELIVERY ∧
        p.assignedDriverUid = du ∧
        p.assignedDriverName =
          some ((jsNullish o.assignedDriverName dn).getD "Driver") ∧
        (applyPayload o p).status = .OUT_FOR_DELIVERY ∧
        (applyPayload o p).assignedDriverUid = du ∧
        (applyPayload o p).assignedDriverName ≠ none ∧
        (applyPayload o p).status ≠ .CONFIRMED) ∧
    (jsFalsyStr o.assignedDriverUid = false →
      driverUpdateStatus du dn o .OUT_FOR_DELIVERY now =
        .ok { status := some .OUT_FOR_DELIVERY
              assignedDriverUid := none
              assignedDriverName := none
              updatedAt := some now }) := by
  constructor
  · intro hun hdu
    obtain ⟨s, rfl, -⟩ := jsFalsyStr_false_some du hdu
    refine ⟨_, driverStart_claim (some s) dn o now hconf (by simp [jsFalsyStr, hun]) hdu,
      rfl, rfl, rfl, ?_, ?_, ?_, ?_⟩ <;> simp [applyPayload]
  · intro has
    exact driverStart_assigned du dn o now hconf has

/-- C2 witness: a concrete unassigned CONFIRMED order claimed by driver
d7. -/
theorem C2_claim_and_advance_check :
    ∃ p, driverUpdateStatus (some "d7") (some "Neo") confirmedUnassigned
        .OUT_FOR_DELIVERY 9 = .ok p ∧
      p.status = some .OUT_FOR_DELIVERY ∧
      p.assignedDriverUid = some "d7" ∧
      p.assignedDriverName =
        some ((jsNullish confirmedUnassigned.assignedDriverName
          (some "Neo")).getD "Driver") ∧
      (applyPayload confirmedUnassigned p).status = .OUT_FOR_DELIVERY ∧
      (applyPayload confirmedUnassigned p).assignedDriverUid = some "d7" ∧
      (applyPayload confirmedUnassigned p).assignedDriverName ≠ none ∧
      (applyPayload confirmedUnassigned p).status ≠ .CONFIRMED :=
  (C2_claim_and_advance (some "d7") (some "Neo") confirmedUnassigned 9
    rfl).1 rfl (by decide)

/-- C3: once an order is DELIVERED or CANCELLED no offered operation
changes its status: the owner screen offers no status button, the
assignment block is not rendered, both driver transitions reject, and
an assignment write (were one issued) never touches status. -/
theorem C3_terminal_states (o : Order)
    (hterm : o.status = .DELIVERED ∨ o.status = .CANCELLED) :
    ownerStatusActions o.status = [] ∧
    canAssign o.status = false ∧
    (∀ du dn now, ∀ t ∈ driverTargets,
      ∃ msg, driverUpdateStatus du dn o t now = .error msg) ∧
    (∀ drivers sel now p, handleAssignDriver drivers sel now = some p →
      (applyPayload o p).status = o.status) := by
  have hnc : o.status ≠ .CONFIRMED := by rcases hterm with h | h <;> simp [h]
  have hno : o.status ≠ .OUT_FOR_DELIVERY := by
    rcases hterm with h | h <;> simp [h]
  refine ⟨?_, ?_, ?_, ?_⟩
  · rcases hterm with h | h <;> rw [h] <;> rfl
  · rcases hterm with h | h <;> rw [h] <;> rfl
  · intro du dn now t ht
    rcases (by simpa [driverTargets] using ht :
      t = OrderStatus.OUT_FOR_DELIVERY ∨ t = OrderStatus.DELIVERED) with rfl | rfl
    · exact ⟨_, driverStart_reject du dn o now hnc⟩
    · exact ⟨_, driverDeliver_reject du dn o now hno⟩
  · intro drivers sel now p hp
    obtain ⟨-, rfl⟩ := handleAssignDriver_some drivers sel now p hp
    simp [applyPayload]

/-- C3 witness: a concrete DELIVERED order offers no owner action, no
assignment, and rejects a concrete driver start-delivery. -/
theorem C3_terminal_states_check :
    ownerStatusActions deliveredSample.status = [] ∧
    canAssign deliveredSample.status = false ∧
    (∃ msg, driverUpdateStatus (some "d7") (some "Neo") deliveredSample
      .OUT_FOR_DELIVERY 4 = .error msg) := by
  obtain ⟨h1, h2, h3, -⟩ := C3_terminal_states deliveredSample (Or.inl rfl)
  exact ⟨h1, h2, h3 (some "d7") (some "Neo") 4 .OUT_FOR_DELIVERY
    (by simp [driverTargets])⟩

/-- C5: start-delivery on a non-CONFIRMED order and mark-delivered on
an order not OUT_FOR_DELIVERY fail with two distinct human-readable
messages, and a write only ever occurs when the respective precondition
held (a rejection issues no write at all). -/
theorem C5_distinct_driver_failures (du dn : Option String) (o : Order)
    (now : Nat) :
    (o.status ≠ .CONFIRMED →
      driverUpdateStatus du dn o .OUT_FOR_DELIVERY now =
        .error "This delivery is no longer in the confirmed stage.") ∧
    (o.status ≠ .OUT_FOR_DELIVERY →
      driverUpdateStatus du dn o .DELIVERED now =
        .error "This delivery is not out for delivery yet.") ∧
    ("This delivery is no longer in the confirmed stage." ≠
      "This delivery is not out for delivery yet.") ∧
    (∀ p, driverUpdateStatus du dn o .OUT_FOR_DELIVERY now = .ok p →
      o.status = .CONFIRMED) ∧
    (∀ p, driverUpdateStatus du dn o .DELIVERED now = .ok p →
      o.status = .OUT_FOR_DELIVERY) :=
  ⟨driverStart_reject du dn o now, driverDeliver_reject du dn o now,
    by decide,
    fun p => driverStart_ok_confirmed du dn o now p,
    fun p => driverDeliver_ok_ofd du dn o now p⟩

/-- C5 witness: the two distinct failure messages on a concrete
CANCELLED order. -/
theorem C5_distinct_driver_failures_check :
    driverUpdateStatus (some "d7") (some "Neo")
        { sampleOrder with status := .CANCELLED } .OUT_FOR_DELIVERY 2 =
      .error "This delivery is no longer in the confirmed stage." ∧
    driverUpdateStatus (some "d7") (some "Neo")
        { sampleOrder with status := .CANCELLED } .DELIVERED 2 =
      .error "This delivery is not out for delivery yet." := by
  obtain ⟨h1, h2, -, -, -⟩ := C5_distinct_driver_failures (some "d7")
    (some "Neo") { sampleOrder with status := .CANCELLED } 2
  exact ⟨h1 (by decide), h2 (by decide)⟩

/-- C4: the dashboard metrics fold recomputes from scratch the total
count, total liters, per-status counts for all five states, delivered
count and delivered liters; revenue is (deliveredLiters / 1000) *
pricePer1000 + deliveryFee * deliveredOrders when the price is
positive, zero otherwise; on the spec's example snapshot it yields
deliveredLiters 1500, deliveredOrders 2 and revenue 415. -/
theorem C4_today_metrics_fold :
    (∀ docs : List RawOrderDoc,
      (foldMetrics docs).total = docs.length ∧
      (foldMetrics docs).liters = (docs.map litersOf).sum ∧
      (∀ t, (foldMetrics docs).byStatus.get t =
        (docs.filter (fun d => decide (d.status = some t))).length) ∧
      (foldMetrics docs).deliveredOrders =
        (docs.filter (fun d =>
          decide (d.status = some .DELIVERED))).length ∧
      (foldMetrics docs).deliveredLiters =
        ((docs.filter (fun d =>
          decide (d.status = some .DELIVERED))).map litersOf).sum ∧
      (∀ price fee : ℚ,
        deliveredRevenueToday (foldMetrics docs) price fee =
          if 0 < price then
            ((docs.filter (fun d =>
              decide (d.status = some .DELIVERED))).map litersOf).sum
              / 1000 * price +
            fee * ((docs.filter (fun d =>
              decide (d.status = some .DELIVERED))).length : ℚ)
          else 0)) ∧
    ((foldMetrics exampleTodayDocs).total = 5 ∧
     (foldMetrics exampleTodayDocs).liters = 1850 ∧
     (foldMetrics exampleTodayDocs).byStatus.get .PENDING = 3 ∧
     (foldMetrics exampleTodayDocs).byStatus.get .DELIVERED = 2 ∧
     (foldMetrics exampleTodayDocs).deliveredLiters = 1500 ∧
     (foldMetrics exampleTodayDocs).deliveredOrders = 2 ∧
     deliveredRevenueToday (foldMetrics exampleTodayDocs) 250 20 = 415 ∧
     deliveredRevenueToday (foldMetrics exampleTodayDocs) 0 20 = 0) := by
  constructor
  · intro docs
    obtain ⟨h1, h2, h3, h4, h5⟩ := metrics_foldl docs createEmptyMetrics
    have H1 : (foldMetrics docs).total = docs.length := by
      simpa [foldMetrics, createEmptyMetrics] using h1
    have H2 : (foldMetrics docs).liters = (docs.map litersOf).sum := by
      simpa [foldMetrics, createEmptyMetrics] using h2
    have H3 : ∀ t, (foldMetrics docs).byStatus.get t =
        (docs.filter (fun d => decide (d.status = some t))).length := by
      intro t
      have hz : createEmptyMetrics.byStatus.get t = 0 := by
        cases t <;> rfl
      have h := h3 t
      rw [hz] at h
      simpa [foldMetrics] using h
    have H4 : (foldMetrics docs).deliveredOrders =
        (docs.filter (fun d =>
          decide (d.status = some .DELIVERED))).length := by
      simpa [foldMetrics, createEmptyMetrics] using h4
    have H5 : (foldMetrics docs).deliveredLiters =
        ((docs.filter (fun d =>
          decide (d.status = some .DELIVERED))).map litersOf).sum := by
      simpa [foldMetrics, createEmptyMetrics] using h5
    refine ⟨H1, H2, H3, H4, H5, ?_⟩
    intro price fee
    simp only [deliveredRevenueToday]
    rw [H5, H4]
  · refine ⟨?_, ?_, ?_, ?_, ?_, ?_, ?_, ?_⟩ <;>
      norm_num [exampleTodayDocs, foldMetrics, metricsStep,
        createEmptyMetrics, litersOf, StatusCounts.inc, StatusCounts.get,
        deliveredRevenueToday]

/-- C6: role resolution returns null when the profile document is
absent or its isActive field equals false regardless of the stored
role, returns the stored role exactly when it is OWNER or DRIVER, and
null for any other stored role. -/
theorem C6_role_resolution (users : String → Option UserDoc)
    (uid : String) :
    (users uid = none → getUserRole users uid = none) ∧
    (∀ d, users uid = some d → d.isActive = .vBool false →
      getUserRole users uid = none) ∧
    (∀ d, users uid = some d → d.isActive ≠ .vBool false →
      (d.role = .vStr "OWNER" → getUserRole users uid = some .OWNER) ∧
      (d.role = .vStr "DRIVER" → getUserRole users uid = some .DRIVER) ∧
      (d.role ≠ .vStr "OWNER" → d.role ≠ .vStr "DRIVER" →
        getUserRole users uid = none)) := by
  refine ⟨?_, ?_, ?_⟩
  · intro h
    simp [getUserRole, h]
  · intro d hd hact
    simp [getUserRole, hd, hact]
  · intro d hd hact
    refine ⟨?_, ?_, ?_⟩
    · intro hr
      simp [getUserRole, hd, hact, hr]
    · intro hr
      simp [getUserRole, hd, hact, hr]
    · intro h1 h2
      simp [getUserRole, hd, hact, h1, h2]

/-- C6 witness: an inactive driver profile resolves to null and an
active one to DRIVER. -/
theorem C6_role_resolution_check :
    getUserRole sampleUsers "u-inactive" = none ∧
    getUserRole sampleUsers "u-driver" = some .DRIVER := by
  refine ⟨?_, ?_⟩
  · exact (C6_role_resolution sampleUsers "u-inactive").2.1
      { role := .vStr "DRIVER", isActive := .vBool false }
      (by decide) (by decide)
  · exact ((C6_role_resolution sampleUsers "u-driver").2.2
      { role := .vStr "DRIVER", isActive := .vBool true }
      (by decide) (by decide)).2.1 (by decide)

/-- C7: a customer submission with empty (after trim) name, phone or
address, non-positive liters, or schedule "later" without a target
instant is rejected with an inline error before any write; otherwise
exactly one PENDING order document is created with both assignment
fields null. -/
theorem C7_submit_validation (authUid : Option String) (form : OrderForm)
    (newId : String) (now : Nat) :
    ((jsTrim form.customerName = "" ∨ jsTrim form.customerPhone = "" ∨
        jsTrim form.address = "" ∨ form.liters ≤ 0 ∨
        (form.scheduleType = "later" ∧ form.scheduledTimestamp = none)) →
      ∃ msg, handleSubmit authUid form newId now = .error msg) ∧
    (authUid ≠ none →
      jsTrim form.customerName ≠ "" → jsTrim form.customerPhone ≠ "" →
      jsTrim form.address ≠ "" → 0 < form.liters →
      ¬(form.scheduleType = "later" ∧ form.scheduledTimestamp = none) →
      handleSubmit authUid form newId now =
        .ok { id := newId
              customerUid := authUid
              customerName := some (jsTrim form.customerName)
              customerPhone := some (jsTrim form.customerPhone)
              address := some (jsTrim form.address)
              landmark := some (jsTrim form.landmark)
              waterType := some form.waterType
              liters := some form.liters
              paymentMethod := some form.paymentMethod
              scheduleType := some form.scheduleType
              scheduledFor := form.scheduledTimestamp
              status := .PENDING
              createdAt := some now
              updatedAt := some now
              assignedDriverUid := none
              assignedDriverName := none }) := by
  constructor
  · intro hbad
    unfold handleSubmit
    by_cases hauth : authUid = none
    · rw [if_pos hauth]
      exact ⟨_, rfl⟩
    rw [if_neg hauth]
    by_cases h1 : jsTrim form.customerName = "" ∨ jsTrim form.customerPhone = "" ∨
        jsTrim form.address = ""
    · rw [if_pos h1]
      exact ⟨_, rfl⟩
    rw [if_neg h1]
    by_cases h2 : form.liters ≤ 0
    · rw [if_pos h2]
      exact ⟨_, rfl⟩
    rw [if_neg h2]
    by_cases h3 : form.scheduleType = "later" ∧ form.scheduledTimestamp = none
    · rw [if_pos h3]
      exact ⟨_, rfl⟩
    exact absurd hbad (by tauto)
  · intro hauth hn hp ha hl hs
    unfold handleSubmit
    rw [if_neg hauth, if_neg (by tauto), if_neg (not_le.mpr hl), if_neg hs]

/-- C7 witness: a concrete valid submission creates the PENDING,
unassigned order document. -/
theorem C7_submit_validation_check :
    handleSubmit (some "c1") sampleForm "o9" 2 =
      .ok { id := "o9"
            customerUid := some "c1"
            customerName := some (jsTrim sampleForm.customerName)
            customerPhone := some (jsTrim sampleForm.customerPhone)
            address := some (jsTrim sampleForm.address)
            landmark := some (jsTrim sampleForm.landmark)
            waterType := some sampleForm.waterType
            liters := some sampleForm.liters
            paymentMethod := some sampleForm.paymentMethod
            scheduleType := some sampleForm.scheduleType
            scheduledFor := sampleForm.scheduledTimestamp
            status := .PENDING
            createdAt := some 2
            updatedAt := some 2
            assignedDriverUid := none
            assignedDriverName := none } :=
  (C7_submit_validation (some "c1") sampleForm "o9" 2).2 (by decide)
    (by decide) (by decide) (by decide) (by decide) (by decide)

/-- C8 counterexample: re-assigning the already-assigned driver d1 is
not idempotent on the assignment fields — the write rewrites
assignedDriverName from the order's cached "Alice" to the
active-driver-list name "Bob", so more than the update timestamp
changes. -/
theorem reassign_same_driver_rewrites_name :
    assignedAlice.assignedDriverUid = some "d1" ∧
    handleAssignDriver [{ uid := "d1", name := "Bob" }] (some "d1") 7 =
      some { status := none
             assignedDriverUid := some "d1"
             assignedDriverName := some "Bob"
             updatedAt := some 7 } ∧
    (applyPayload assignedAlice
      { status := none
        assignedDriverUid := some "d1"
        assignedDriverName := some "Bob"
        updatedAt := some 7 }).assignedDriverName ≠
      assignedAlice.assignedDriverName := by
  refine ⟨rfl, by decide, by decide⟩

/-- C8 (amended): the assignment operation writes only
assignedDriverUid, assignedDriverName and the update timestamp, leaving
status and every other order field unchanged; re-assigning driver D
leaves assignedDriverUid unchanged but rewrites assignedDriverName to
D's name in the current active-driver list (or "Driver" when D is
absent from it), so only the update timestamp changes exactly when the
order's cached driver name already equals that looked-up name. -/
theorem C8_assignment_frame (drivers : List DriverOption)
    (sel : Option String) (o : Order) (now : Nat) (p : UpdatePayload)
    (hp : handleAssignDriver drivers sel now = some p) :
    ((applyPayload o p).id = o.id ∧
     (applyPayload o p).customerUid = o.customerUid ∧
     (applyPayload o p).customerName = o.customerName ∧
     (applyPayload o p).customerPhone = o.customerPhone ∧
     (applyPayload o p).address = o.address ∧
     (applyPayload o p).landmark = o.landmark ∧
     (applyPayload o p).waterType = o.waterType ∧
     (applyPayload o p).liters = o.liters ∧
     (applyPayload o p).paymentMethod = o.paymentMethod ∧
     (applyPayload o p).scheduleType = o.scheduleType ∧
     (applyPayload o p).scheduledFor = o.scheduledFor ∧
     (applyPayload o p).createdAt = o.createdAt ∧
     (applyPayload o p).status = o.status) ∧
    (applyPayload o p).assignedDriverUid = sel ∧
    (applyPayload o p).assignedDriverName =
      some (((drivers.find? (fun item => item.uid == sel.getD "")).map
        DriverOption.name).getD "Driver") ∧
    (applyPayload o p).updatedAt = some now ∧
    (o.assignedDriverUid = sel ∧
      o.assignedDriverName =
        some (((drivers.find? (fun item => item.uid == sel.getD "")).map
          DriverOption.name).getD "Driver") →
      applyPayload o p = { o with updatedAt := some now }) := by
  obtain ⟨hsel, rfl⟩ := handleAssignDriver_some drivers sel now p hp
  obtain ⟨s, rfl, -⟩ := jsFalsyStr_false_some sel hsel
  refine ⟨⟨rfl, rfl, rfl, rfl, rfl, rfl, rfl, rfl, rfl, rfl, rfl, rfl,
    rfl⟩, rfl, rfl, rfl, ?_⟩
  rintro ⟨hu, hn⟩
  show ({ o with
      assignedDriverUid := some s
      assignedDriverName :=
        some (((drivers.find? (fun item => item.uid == (some s).getD "")).map
          DriverOption.name).getD "Driver")
      updatedAt := some now } : Order) = { o with updatedAt := some now }
  rw [← hn, ← hu]

/-- C8 witness: a concrete assignment leaves the order's status
untouched. -/
theorem C8_assignment_frame_check :
    (applyPayload confirmedUnassigned
      { status := none
        assignedDriverUid := some "d7"
        assignedDriverName := some "Neo"
        updatedAt := some 6 }).status = confirmedUnassigned.status :=
  (C8_assignment_frame [{ uid := "d7", name := "Neo" }] (some "d7")
    confirmedUnassigned 6
    { status := none
      assignedDriverUid := some "d7"
      assignedDriverName := some "Neo"
      updatedAt := some 6 }
    (by decide)).1.2.2.2.2.2.2.2.2.2.2.2.2

/-- C9: every operation preserves the invariant that assignedDriverUid
and assignedDriverName are both null or both set: creation writes both
null, assignment writes both, a driver write touches both or neither,
and an owner status write touches neither. -/
theorem C9_assignment_pair_preserved :
    (∀ authUid form newId now o,
      handleSubmit authUid form newId now = .ok o →
      assignPairConsistent o) ∧
    (∀ drivers sel now (o : Order) p,
      handleAssignDriver drivers sel now = some p →
      assignPairConsistent (applyPayload o p)) ∧
    (∀ du dn (o : Order) t now p, assignPairConsistent o →
      driverUpdateStatus du dn o t now = .ok p →
      assignPairConsistent (applyPayload o p)) ∧
    (∀ (o : Order) t now, assignPairConsistent o →
      assignPairConsistent (applyPayload o (ownerUpdateStatus t now))) := by
  refine ⟨?_, ?_, ?_, ?_⟩
  · intro authUid form newId now o h
    unfold handleSubmit at h
    by_cases h0 : authUid = none
    · rw [if_pos h0] at h
      exact Except.noConfusion h
    rw [if_neg h0] at h
    by_cases h1 : jsTrim form.customerName = "" ∨
        jsTrim form.customerPhone = "" ∨ jsTrim form.address = ""
    · rw [if_pos h1] at h
      exact Except.noConfusion h
    rw [if_neg h1] at h
    by_cases h2 : form.liters ≤ 0
    · rw [if_pos h2] at h
      exact Except.noConfusion h
    rw [if_neg h2] at h
    by_cases h3 : form.scheduleType = "later" ∧ form.scheduledTimestamp = none
    · rw [if_pos h3] at h
      exact Except.noConfusion h
    rw [if_neg h3] at h
    obtain rfl := Except.ok.inj h
    simp [assignPairConsistent]
  · intro drivers sel now o p hp
    obtain ⟨hsel, rfl⟩ := handleAssignDriver_some drivers sel now p hp
    obtain ⟨s, rfl, -⟩ := jsFalsyStr_false_some sel hsel
    simp [assignPairConsistent, applyPayload]
  · intro du dn o t now p hinv hp
    obtain ⟨-, -, hpair⟩ := driverUpdateStatus_ok_payload du dn o t now p hp
    rcases hpair with ⟨h1, h2⟩ | ⟨hdu, h1, h2⟩
    · exact applyPayload_pair o p hinv (Or.inl ⟨h1, h2⟩)
    · obtain ⟨s, rfl, -⟩ := jsFalsyStr_false_some du hdu
      exact applyPayload_pair o p hinv
        (Or.inr ⟨by simp [h1], by simp [h2]⟩)
  · intro o t now hinv
    rw [ownerUpdate_apply]
    simpa [assignPairConsistent] using hinv

/-- C9 witness: a concrete owner assignment yields a state with both
assignment fields set. -/
theorem C9_assignment_pair_preserved_check :
    assignPairConsistent (applyPayload sampleOrder
      { status := none
        assignedDriverUid := some "d7"
        assignedDriverName := some "Neo"
        updatedAt := some 6 }) :=
  C9_assignment_pair_preserved.2.1 [{ uid := "d7", name := "Neo" }]
    (some "d7") 6 sampleOrder
    { status := none
      assignedDriverUid := some "d7"
      assignedDriverName := some "Neo"
      updatedAt := some 6 }
    (by decide)

/-- C10: role resolution denies access only on isActive strictly equal
to false — a profile whose isActive field is missing or holds any
non-false value is treated as active, so a users document with role
OWNER or DRIVER and no isActive field resolves to that role. -/
theorem C10_isActive_strict_false (users : String → Option UserDoc)
    (uid : String) (d : UserDoc) (hd : users uid = some d)
    (hact : d.isActive ≠ .vBool false) :
    (d.role = .vStr "OWNER" → getUserRole users uid = some .OWNER) ∧
    (d.role = .vStr "DRIVER" → getUserRole users uid = some .DRIVER) ∧
    (d.role ≠ .vStr "OWNER" → d.role ≠ .vStr "DRIVER" →
      getUserRole users uid = none) := by
  refine ⟨?_, ?_, ?_⟩
  · intro hr
    simp [getUserRole, hd, hact, hr]
  · intro hr
    simp [getUserRole, hd, hact, hr]
  · intro h1 h2
    simp [getUserRole, hd, hact, h1, h2]

/-- C10 witness: the owner profile with no isActive field resolves to
OWNER. -/
theorem C10_isActive_strict_false_check :
    getUserRole sampleUsers "u-owner" = some .OWNER :=
  (C10_isActive_strict_false sampleUsers "u-owner"
    { role := .vStr "OWNER", isActive := .vUndefined }
    (by decide) (by decide)).1 (by decide)

end AquaOrder
